import Mathlib

/-
Formal model of the tron LEAP client (src/client.go).

The Go source is embedded shallowly: every externally visible effect of
`Client.Pair` (TLS dial, deadline, RSA key generation, key-file write, CSR
creation, line reads, connection writes, certificate-file writes) is recorded
as an event in an execution trace, and every fallible collaborator call
(file system, TLS socket, crypto library) is resolved by an explicit
environment value, so one environment determines one execution.  The
`Ping`/`Devices` read loops are modelled as fuel-indexed loops over a stream
of read results, because the Go loops have no exit path other than a failed
read.  Cryptographic primitives from the Go standard library (RSA signing,
X.509 CSR encoding) are external collaborators and are modelled symbolically:
a signature value records which key signed which payload, and verification
checks that the signing key matches the declared public key.
-/

namespace Tron

/-- Kinds of I/O errors a socket read or write can fail with.  `timeout` is
the error produced when the connection deadline set by `conn.SetDeadline`
expires while a read or write is blocked. -/
inductive GoIOErr
  | timeout
  | reset
  | eof
  | closed
deriving DecidableEq

/-- Errors `Pair` can return.  The Go code declares no error types of its
own: every failure path is `return err` on the error of a collaborator call,
so the error universe is exactly the collaborator errors, wrapped here only
to keep socket errors (`ioErr`) distinguishable from crypto, file-system and
JSON-decoding errors in the model. -/
inductive GErr
  | ioErr (e : GoIOErr)
  | cryptoErr
  | fsErr
  | unmarshalErr (msg : String)
deriving DecidableEq

/-- The `Client` struct (client.go lines 22-33).  The unexported
`http.Client` field is dead state (never read) and is omitted; `seqNo` is
declared in the source with the comment "instead of UUIDs" but is never
used. -/
structure Client where
  Host : String
  CACertPath : String
  ClientCertPath : String
  ClientKeyPath : String
  Verbose : Bool
  seqNo : Int
deriving DecidableEq

/-- `RequestHeader` (client.go lines 35-39).  Unset fields take the Go zero
value `""`. -/
structure RequestHeader where
  ClientTag : String
  RequestType : String
  Url : String
deriving DecidableEq

/-- The request struct declared locally (and identically) inside both `Ping`
(lines 280-283) and `Devices` (lines 337-340). -/
structure PingRequest where
  CommuniqueType : String
  Header : RequestHeader
deriving DecidableEq

/-- The request envelope built by `Ping` (lines 285-291).  The receiver is
ignored: the tag is the hard-coded literal "ping-1". -/
def mkPingRequest (_c : Client) : PingRequest :=
  { CommuniqueType := "ReadRequest"
    Header := { ClientTag := "ping-1", RequestType := "", Url := "/server/1/status/ping" } }

/-- The request envelope built by `Devices` (lines 342-347).  Only `Url` is
set; `ClientTag` is the Go zero value "". -/
def mkDevicesRequest (_c : Client) : PingRequest :=
  { CommuniqueType := "ReadRequest"
    Header := { ClientTag := "", RequestType := "", Url := "/device" } }

/-- Where the client certificate of a TLS config comes from: the pairing
certificate is a constant embedded in `loadPairingCertificate` (lines
58-118); the control-channel certificate is loaded from the configured file
paths by `loadClientCertificate` (lines 41-56). -/
inductive CertSource
  | pairingEmbedded
  | clientFiles (certPath : String) (keyPath : String)
deriving DecidableEq

/-- The two `tls.Config` fields the source sets at each of its three
`tls.Dial` call sites. -/
structure TLSConfig where
  InsecureSkipVerify : Bool
  Certificates : List CertSource
deriving DecidableEq

/-- Control-channel port (client.go line 18). -/
def controlPort : Nat := 8081

/-- Pairing port (client.go line 19). -/
def pairingPort : Nat := 8083

/-- The `tls.Config` built by `Pair` (lines 129-132). -/
def pairDialConfig : TLSConfig :=
  { InsecureSkipVerify := true, Certificates := [CertSource.pairingEmbedded] }

/-- The `tls.Config` built by `Ping` (lines 271-274). -/
def pingDialConfig (c : Client) : TLSConfig :=
  { InsecureSkipVerify := true
    Certificates := [CertSource.clientFiles c.ClientCertPath c.ClientKeyPath] }

/-- The `tls.Config` built by `Devices` (lines 328-331). -/
def devicesDialConfig (c : Client) : TLSConfig :=
  { InsecureSkipVerify := true
    Certificates := [CertSource.clientFiles c.ClientCertPath c.ClientKeyPath] }

/-- JSON values, used to model the parsed form of a response line. -/
inductive Json
  | null
  | bool (b : Bool)
  | num (n : Int)
  | str (s : String)
  | arr (elems : List Json)
  | obj (fields : List (String × Json))

/-- ASCII lower-casing of a character, mirroring the fold Go
`encoding/json` applies when matching object keys to struct fields. -/
def lowerChar (c : Char) : Char :=
  if 65 ≤ c.toNat ∧ c.toNat ≤ 90 then Char.ofNat (c.toNat + 32) else c

/-- ASCII lower-casing of a string. -/
def lowerStr (s : String) : String :=
  String.mk (s.data.map lowerChar)

/-- Go `encoding/json` field matching for a struct with a single field per
nesting level: every object key that matches the field name
case-insensitively assigns to it, and the last assignment wins. -/
def fieldLookup (fields : List (String × Json)) (name : String) : Option Json :=
  ((fields.filter (fun kv => lowerStr kv.fst == lowerStr name)).map Prod.snd).getLast?

/-- Decoding a JSON value into a Go `string` field: absent or `null` leaves
the zero value, a string assigns, any other value is an
`UnmarshalTypeError`. -/
def decodeStringField (v : Option Json) : Except String String :=
  match v with
  | none => Except.ok ""
  | some Json.null => Except.ok ""
  | some (Json.str s) => Except.ok s
  | some _ => Except.error "unmarshal: field is not a string"

/-- The innermost struct of the `PairResponse` type declared inside `Pair`
(lines 236-243). -/
structure SigningResult where
  Certificate : String
  RootCertificate : String
deriving DecidableEq

/-- The `Body` struct of `PairResponse` (lines 236-243). -/
structure PairResponseBody where
  SigningResult : SigningResult
deriving DecidableEq

/-- The `PairResponse` type declared inside `Pair` (lines 236-243). -/
structure PairResponse where
  Body : PairResponseBody
deriving DecidableEq

/-- Decode into the `SigningResult` struct, following Go semantics. -/
def decodeSigningResult (v : Option Json) : Except String SigningResult :=
  match v with
  | none => Except.ok { Certificate := "", RootCertificate := "" }
  | some Json.null => Except.ok { Certificate := "", RootCertificate := "" }
  | some (Json.obj fields) =>
    match decodeStringField (fieldLookup fields "Certificate") with
    | Except.error m => Except.error m
    | Except.ok cert =>
      match decodeStringField (fieldLookup fields "RootCertificate") with
      | Except.error m => Except.error m
      | Except.ok root => Except.ok { Certificate := cert, RootCertificate := root }
  | some _ => Except.error "unmarshal: SigningResult is not an object"

/-- Decode into the `Body` struct, following Go semantics. -/
def decodePairBody (v : Option Json) : Except String PairResponseBody :=
  match v with
  | none => Except.ok { SigningResult := { Certificate := "", RootCertificate := "" } }
  | some Json.null => Except.ok { SigningResult := { Certificate := "", RootCertificate := "" } }
  | some (Json.obj fields) =>
    match decodeSigningResult (fieldLookup fields "SigningResult") with
    | Except.error m => Except.error m
    | Except.ok sr => Except.ok { SigningResult := sr }
  | some _ => Except.error "unmarshal: Body is not an object"

/-- The `json.Unmarshal([]byte(line), &res)` call of `Pair` (line 246).  A
line is modelled as `Option Json`: `none` is text that is not valid JSON (a
syntax error), `some j` is text whose JSON parse is `j`.  Missing fields
leave zero values, unknown fields are ignored, type mismatches and syntax
errors return a non-nil error, exactly as the Go call does. -/
def decodePairResponse (line : Option Json) : Except String PairResponse :=
  match line with
  | none => Except.error "invalid json"
  | some Json.null => Except.ok { Body := { SigningResult := { Certificate := "", RootCertificate := "" } } }
  | some (Json.obj fields) =>
    match decodePairBody (fieldLookup fields "Body") with
    | Except.error m => Except.error m
    | Except.ok body => Except.ok { Body := body }
  | some _ => Except.error "unmarshal: top-level value is not an object"

/-- Symbolic RSA private key: `id` identifies the keypair, `bits` its
modulus size.  `rsa.GenerateKey(rand.Reader, 2048)` (line 160) produces a
fresh key with `bits = 2048`. -/
structure RSAPrivateKey where
  id : Nat
  bits : Nat
deriving DecidableEq

/-- Symbolic RSA public key: the public half of the keypair with the same
`id`. -/
structure RSAPublicKey where
  id : Nat
deriving DecidableEq

/-- The public half of a private key (`priv.Public()` in Go). -/
def RSAPrivateKey.publicKey (k : RSAPrivateKey) : RSAPublicKey :=
  { id := k.id }

/-- The to-be-signed content of a certificate signing request: the subject
and the declared public key. -/
structure CSRInfo where
  subjectCommonName : String
  publicKeyId : Nat
deriving DecidableEq

/-- Symbolic signature: records the signing key and the signed payload.
This is the standard symbolic model of the RSA-SHA256 signature the Go
standard library computes inside `x509.CreateCertificateRequest`. -/
inductive RSASignature
  | sha256WithRSA (signerId : Nat) (signed : CSRInfo)
deriving DecidableEq

/-- A certificate signing request: its to-be-signed info plus the signature
over that info. -/
structure CertificateRequest where
  info : CSRInfo
  signature : RSASignature
deriving DecidableEq

/-- The `x509.CreateCertificateRequest` call of `Pair` (lines 175-180):
the template carries `Subject.CommonName`, the declared public key is the
public half of the signing key, and the signature is produced with the
private key over the to-be-signed info. -/
def createCertificateRequest (cn : String) (key : RSAPrivateKey) : CertificateRequest :=
  { info := { subjectCommonName := cn, publicKeyId := key.id }
    signature := RSASignature.sha256WithRSA key.id { subjectCommonName := cn, publicKeyId := key.id } }

/-- `CheckSignature` on a CSR: the signature must verify against the public
key declared inside the CSR itself, over the CSR's own to-be-signed info. -/
def CertificateRequest.checkSignature (csr : CertificateRequest) : Bool :=
  match csr.signature with
  | RSASignature.sha256WithRSA signer signed =>
    signer == csr.info.publicKeyId && decide (signed = csr.info)

/-- The CSR `Pair` builds for a freshly generated key (lines 175-180): the
common name is the fixed literal "tron". -/
def pairCSR (key : RSAPrivateKey) : CertificateRequest :=
  createCertificateRequest "tron" key

/-- Symbolic stand-in for `pem.EncodeToMemory` of the DER encoding of the
CSR (lines 185-188): an external-collaborator serialization, modelled as a
PEM-framed rendering of the symbolic CSR content. -/
def csrPemString (csr : CertificateRequest) : String :=
  "-----BEGIN CERTIFICATE REQUEST-----CN=" ++ csr.info.subjectCommonName ++
    ";KEY=" ++ toString csr.info.publicKeyId ++ "-----END CERTIFICATE REQUEST-----"

/-- `PairRequestParameters` (client.go lines 143-148). -/
structure PairRequestParameters where
  CSR : String
  DeviceUID : String
  DisplayName : String
  Role : String
deriving DecidableEq

/-- `PairRequestBody` (client.go lines 150-153). -/
structure PairRequestBody where
  CommandType : String
  Parameters : PairRequestParameters
deriving DecidableEq

/-- `PairRequest` (client.go lines 155-158). -/
structure PairRequest where
  Body : PairRequestBody
  Header : RequestHeader
deriving DecidableEq

/-- The pairing request envelope (lines 197-212): tag "pair", request type
"Execute", url "/pair", and a body naming the CSR, a device identifier, a
display name and the Admin role. -/
def mkPairRequest (csr : String) : PairRequest :=
  { Header := { ClientTag := "pair", RequestType := "Execute", Url := "/pair" }
    Body :=
      { CommandType := "CSR"
        Parameters :=
          { CSR := csr, DeviceUID := "000000000000", DisplayName := "tron", Role := "Admin" } } }

/-- Data sent on the pairing connection: the marshalled request (line 220)
or the newline terminator (line 225). -/
inductive Wire
  | request (r : PairRequest)
  | newline
deriving DecidableEq

/-- Observable events of one `Pair` execution, in program order. -/
inductive Ev
  | dial (cfg : TLSConfig) (host : String) (port : Nat)
  | setDeadline
  | genKey (bits : Nat)
  | writeKeyPEM (path : String) (pemType : String)
  | csrCreate (cn : String)
  | readLine
  | connWrite (w : Wire)
  | writeFile (path : String) (content : String)
deriving DecidableEq

/-- The environment resolving every fallible collaborator call `Pair`
makes, in program order.  `none` or `Except.ok` means the call succeeds.
`read2` carries the parsed form of the second line (`none` inside the
`Except.ok` meaning text that is not valid JSON).  `json.Marshal` of the
request struct (line 214) cannot fail for a struct of strings and is not
given a failure knob. -/
structure PairEnv where
  loadPairingCert : Option GErr
  dial : Option GoIOErr
  setDeadline : Option GoIOErr
  keygen : Except GErr Nat
  openKeyFile : Option GErr
  pemEncodeKey : Option GErr
  csrSign : Option GErr
  read1 : Except GoIOErr String
  writeMsg : Option GoIOErr
  writeNewline : Option GoIOErr
  read2 : Except GoIOErr (Option Json)
  writeClientCert : Option GErr
  writeCACert : Option GErr

/-- Final stage of `Pair` (lines 251-259): write the issued certificate to
the client-cert path, then the root certificate to the CA-cert path. -/
def pairWriteCerts (c : Client) (env : PairEnv) (res : PairResponse) :
    List Ev × Except GErr Unit :=
  match env.writeClientCert with
  | some e => ([Ev.writeFile c.ClientCertPath res.Body.SigningResult.Certificate], Except.error e)
  | none =>
    match env.writeCACert with
    | some e =>
      ([Ev.writeFile c.ClientCertPath res.Body.SigningResult.Certificate,
        Ev.writeFile c.CACertPath res.Body.SigningResult.RootCertificate], Except.error e)
    | none =>
      ([Ev.writeFile c.ClientCertPath res.Body.SigningResult.Certificate,
        Ev.writeFile c.CACertPath res.Body.SigningResult.RootCertificate], Except.ok ())

/-- Read the pairing response line (lines 230-233) and unmarshal it (lines
245-249); a read failure or a parse failure is returned at once, with no
further reads. -/
def pairReadResponse (c : Client) (env : PairEnv) : List Ev × Except GErr Unit :=
  match env.read2 with
  | Except.error e => ([Ev.readLine], Except.error (GErr.ioErr e))
  | Except.ok line =>
    match decodePairResponse line with
    | Except.error m => ([Ev.readLine], Except.error (GErr.unmarshalErr m))
    | Except.ok res =>
      (Ev.readLine :: (pairWriteCerts c env res).1, (pairWriteCerts c env res).2)

/-- Marshal and send the pairing request followed by a newline (lines
214-228). -/
def pairSendRequest (c : Client) (env : PairEnv) (csrPem : String) :
    List Ev × Except GErr Unit :=
  match env.writeMsg with
  | some e => ([Ev.connWrite (Wire.request (mkPairRequest csrPem))], Except.error (GErr.ioErr e))
  | none =>
    match env.writeNewline with
    | some e =>
      ([Ev.connWrite (Wire.request (mkPairRequest csrPem)), Ev.connWrite Wire.newline],
        Except.error (GErr.ioErr e))
    | none =>
      (Ev.connWrite (Wire.request (mkPairRequest csrPem)) :: Ev.connWrite Wire.newline ::
        (pairReadResponse c env).1, (pairReadResponse c env).2)

/-- Read the initial unsolicited greeting line (lines 190-195) before
sending the request. -/
def pairReadGreeting (c : Client) (env : PairEnv) (csrPem : String) :
    List Ev × Except GErr Unit :=
  match env.read1 with
  | Except.error e => ([Ev.readLine], Except.error (GErr.ioErr e))
  | Except.ok _ =>
    (Ev.readLine :: (pairSendRequest c env csrPem).1, (pairSendRequest c env csrPem).2)

/-- Build and PEM-encode the CSR (lines 175-188). -/
def pairMakeCSR (c : Client) (env : PairEnv) (key : RSAPrivateKey) :
    List Ev × Except GErr Unit :=
  match env.csrSign with
  | some e => ([Ev.csrCreate "tron"], Except.error e)
  | none =>
    (Ev.csrCreate "tron" :: (pairReadGreeting c env (csrPemString (pairCSR key))).1,
      (pairReadGreeting c env (csrPemString (pairCSR key))).2)

/-- Open the client-key file and PEM-encode the fresh private key into it
(lines 166-173).  The write event records the attempt; a failed encode
still attempted the write. -/
def pairWriteKey (c : Client) (env : PairEnv) (key : RSAPrivateKey) :
    List Ev × Except GErr Unit :=
  match env.openKeyFile with
  | some e => ([], Except.error e)
  | none =>
    match env.pemEncodeKey with
    | some e => ([Ev.writeKeyPEM c.ClientKeyPath "RSA PRIVATE KEY"], Except.error e)
    | none =>
      (Ev.writeKeyPEM c.ClientKeyPath "RSA PRIVATE KEY" :: (pairMakeCSR c env key).1,
        (pairMakeCSR c env key).2)

/-- Generate the fresh 2048-bit RSA keypair (lines 160-163). -/
def pairGenerateKey (c : Client) (env : PairEnv) : List Ev × Except GErr Unit :=
  match env.keygen with
  | Except.error e => ([], Except.error e)
  | Except.ok kid =>
    (Ev.genKey 2048 :: (pairWriteKey c env { id := kid, bits := 2048 }).1,
      (pairWriteKey c env { id := kid, bits := 2048 }).2)

/-- `Client.Pair` (client.go lines 123-262) as a trace of events plus a
result, determined by the environment.  Effects appear in source order:
load the embedded pairing certificate, dial the pairing port, set the
2-minute deadline, generate the key, persist it, build the CSR, read the
greeting, send the request, read and decode the response, write the two
certificate files. -/
def pairRun (c : Client) (env : PairEnv) : List Ev × Except GErr Unit :=
  match env.loadPairingCert with
  | some e => ([], Except.error e)
  | none =>
    match env.dial with
    | some e => ([Ev.dial pairDialConfig c.Host pairingPort], Except.error (GErr.ioErr e))
    | none =>
      match env.setDeadline with
      | some e =>
        ([Ev.dial pairDialConfig c.Host pairingPort, Ev.setDeadline],
          Except.error (GErr.ioErr e))
      | none =>
        (Ev.dial pairDialConfig c.Host pairingPort :: Ev.setDeadline ::
          (pairGenerateKey c env).1, (pairGenerateKey c env).2)

/-- The read loop of `Ping` (lines 302-318): read one line per iteration
from the stream; a failed read returns that error; a successful read is
printed at most and the loop continues — the line content is never
inspected.  The loop has no other exit, so it is modelled with fuel:
`none` means the loop is still running after `fuel` iterations. -/
def pingLoop (stream : Nat → Except GoIOErr String) :
    Nat → Nat → Option (Except GoIOErr Unit)
  | 0, _ => none
  | fuel + 1, i =>
    match stream i with
    | Except.error e => some (Except.error e)
    | Except.ok _ => pingLoop stream fuel (i + 1)

/-- The read loop of `Devices` (lines 361-377), identical in structure to
the `Ping` loop; the `return "result", nil` after the loop would be the
success value. -/
def devicesLoop (stream : Nat → Except GoIOErr String) :
    Nat → Nat → Option (Except GoIOErr String)
  | 0, _ => none
  | fuel + 1, i =>
    match stream i with
    | Except.error e => some (Except.error e)
    | Except.ok _ => devicesLoop stream fuel (i + 1)

/-- True only when a loop exited with the success value after the loop
body, the return the Go source can never reach. -/
def exitedWithSuccess {α : Type} : Option (Except GoIOErr α) → Bool
  | some (Except.ok _) => true
  | _ => false

/-- A stream on which no read ever fails. -/
def streamNeverFails (stream : Nat → Except GoIOErr String) : Prop :=
  ∀ j, ∃ s, stream j = Except.ok s

/-- Scan a trace: true when no connection write occurs before the private
key has been PEM-encoded into the key file. -/
def keyWriteBeforeSend : List Ev → Bool
  | [] => true
  | Ev.connWrite _ :: _ => false
  | Ev.writeKeyPEM _ _ :: _ => true
  | _ :: tl => keyWriteBeforeSend tl

/-- Scan a trace: true when no key-file write occurs before a 2048-bit key
generation. -/
def genBeforeKeyWrite : List Ev → Bool
  | [] => true
  | Ev.writeKeyPEM _ _ :: _ => false
  | Ev.genKey b :: _ => b == 2048
  | _ :: tl => genBeforeKeyWrite tl

/-- True for a line-read event. -/
def isReadLineEv : Ev → Bool
  | Ev.readLine => true
  | _ => false

/-- Number of line reads in a trace. -/
def countReadLines (tr : List Ev) : Nat :=
  (tr.filter isReadLineEv).length

/-- True when the trace contains a certificate-file write. -/
def hasFileWrite (tr : List Ev) : Bool :=
  tr.any (fun e =>
    match e with
    | Ev.writeFile _ _ => true
    | _ => false)

/-- True when `Pair` returned through the generic socket-error pass-through
path, i.e. the result is the error of a failed read or write surfaced
verbatim. -/
def resultIsTransportErr : Except GErr Unit → Bool
  | Except.error (GErr.ioErr _) => true
  | _ => false

/-- A concrete client configuration. -/
def clientA : Client :=
  { Host := "198.51.100.7", CACertPath := "/certs/ca.crt",
    ClientCertPath := "/certs/client.crt", ClientKeyPath := "/certs/client.key",
    Verbose := false, seqNo := 0 }

/-- The same configuration after one more (hypothetical) sequence step:
only `seqNo` differs. -/
def clientB : Client :=
  { clientA with seqNo := 1 }

/-- A pairing response line carrying a signing result with both
certificates, as a parsed JSON value. -/
def jsonSigning : Json :=
  Json.obj [("Body", Json.obj [("SigningResult", Json.obj
    [("Certificate", Json.str "PEM-A"), ("RootCertificate", Json.str "PEM-B")])])]

/-- An environment in which every collaborator call succeeds and the peer
answers the pairing request with `jsonSigning`. -/
def envAllOk : PairEnv :=
  { loadPairingCert := none, dial := none, setDeadline := none,
    keygen := Except.ok 7, openKeyFile := none, pemEncodeKey := none,
    csrSign := none, read1 := Except.ok "greeting",
    writeMsg := none, writeNewline := none,
    read2 := Except.ok (some jsonSigning),
    writeClientCert := none, writeCACert := none }

/-- An environment in which the 2-minute deadline expires while `Pair` is
blocked on the first read: the read fails with the timeout error. -/
def envTimedOut : PairEnv :=
  { envAllOk with read1 := Except.error GoIOErr.timeout }

/-- An environment in which the pairing response line is not valid JSON. -/
def envParseFail : PairEnv :=
  { envAllOk with read2 := Except.ok none }

/-- A response stream whose first line is a success-class response matching
the `Ping` tag "ping-1" with status "200 OK", after which the stream
ends. -/
def c1Stream : Nat → Except GoIOErr String := fun i =>
  if i = 0 then
    Except.ok "\x7b\"CommuniqueType\":\"ReadResponse\",\"Header\":\x7b\"ClientTag\":\"ping-1\",\"StatusCode\":\"200 OK\"\x7d,\"Body\":\x7b\"PingResponse\":\x7b\"LEAPVersion\":1\x7d\x7d\x7d\n"
  else Except.error GoIOErr.eof

/-- A response stream whose first line is an exception-class response
matching the `Ping` tag "ping-1", after which the stream ends. -/
def c2Stream : Nat → Except GoIOErr String := fun i =>
  if i = 0 then
    Except.ok "\x7b\"CommuniqueType\":\"ExceptionResponse\",\"Header\":\x7b\"ClientTag\":\"ping-1\",\"StatusCode\":\"500 Internal Server Error\"\x7d,\"Body\":\x7b\"Message\":\"boom\"\x7d\x7d\n"
  else Except.error GoIOErr.eof

/-- A response stream whose first line is an exception-class response
matching the `Devices` tag "", after which the stream ends. -/
def c2StreamDevices : Nat → Except GoIOErr String := fun i =>
  if i = 0 then
    Except.ok "\x7b\"CommuniqueType\":\"ExceptionResponse\",\"Header\":\x7b\"ClientTag\":\"\",\"StatusCode\":\"500 Internal Server Error\"\x7d,\"Body\":\x7b\"Message\":\"boom\"\x7d\x7d\n"
  else Except.error GoIOErr.eof

/-- A stream that always yields a readable line. -/
def steadyStream : Nat → Except GoIOErr String := fun _ => Except.ok "noise"

/-- Claim C1 (evaluation at the failing input): fed a stream whose first
line is a success-class response matching the request tag "ping-1" with
status "200 OK", the `Ping` read loop does not stop at that line and does
not return its body — it keeps reading and exits only when the next read
fails at end of stream, surfacing that read error.  The line-316 TODO in
the source acknowledges the missing tag match. -/
theorem ping_ignores_matching_success_line :
    pingLoop c1Stream 2 0 = some (Except.error GoIOErr.eof) := rfl

/-- Claim C2 (evaluation at the failing input): fed a stream whose first
line is an exception-class response matching the request tag, neither the
`Ping` loop nor the `Devices` loop fails with a remote-exception value
carrying the peer status and message — both ignore the line and surface
the end-of-stream read error; no exception classification exists in the
code. -/
theorem ping_ignores_matching_exception_line :
    pingLoop c2Stream 2 0 = some (Except.error GoIOErr.eof) ∧
    devicesLoop c2StreamDevices 2 0 = some (Except.error GoIOErr.eof) :=
  ⟨rfl, rfl⟩

/-- Claim C3 (counterexample): two distinct `Ping` invocations — modelled
by two distinct client states, differing in `seqNo` — place the same
correlation tag "ping-1" in their request envelopes, so the tags of
distinct calls are not distinct and not freshly generated. -/
theorem ping_tags_equal_across_invocations :
    clientA ≠ clientB ∧
    (mkPingRequest clientA).Header.ClientTag = (mkPingRequest clientB).Header.ClientTag ∧
    (mkPingRequest clientA).Header.ClientTag = "ping-1" :=
  ⟨by decide, rfl, rfl⟩

/-- Claim C3 (amended): every request envelope carries a fixed, hard-coded
tag — "ping-1" for `Ping`, the zero value "" for `Devices`, "pair" for
`Pair` — independent of the client state (the `seqNo` field is unused), so
repeated invocations of the same call reuse the same tag. -/
theorem request_tags_are_fixed_constants (c : Client) (csr : String) :
    (mkPingRequest c).Header.ClientTag = "ping-1" ∧
    (mkDevicesRequest c).Header.ClientTag = "" ∧
    (mkPairRequest csr).Header.ClientTag = "pair" :=
  ⟨rfl, rfl, rfl⟩

/-- Claim C4 (counterexample): when the 2-minute deadline expires while
`Pair` is blocked on the first read, `Pair` returns the read error itself
through the same generic socket-error path (`GErr.ioErr`) that a
connection reset takes — deadline expiry is reported as a generic I/O
failure, and no distinct pairing-timeout condition exists in the code. -/
theorem pair_deadline_expiry_returns_io_error :
    (pairRun clientA envTimedOut).2 = Except.error (GErr.ioErr GoIOErr.timeout) ∧
    resultIsTransportErr (pairRun clientA envTimedOut).2 = true ∧
    (pairRun clientA { envTimedOut with read1 := Except.error GoIOErr.reset }).2 =
      Except.error (GErr.ioErr GoIOErr.reset) :=
  ⟨rfl, rfl, rfl⟩

/-- Claim C4 (amended): if the greeting read fails — with the deadline
timeout or any other I/O error — `Pair` returns that error verbatim,
wrapped in the single generic socket-error form; the code defines no
distinct pairing-timeout condition. -/
theorem pair_read_error_passthrough (c : Client) (env : PairEnv) (k : Nat) (e : GoIOErr)
    (h1 : env.loadPairingCert = none) (h2 : env.dial = none) (h3 : env.setDeadline = none)
    (h4 : env.keygen = Except.ok k) (h5 : env.openKeyFile = none)
    (h6 : env.pemEncodeKey = none) (h7 : env.csrSign = none)
    (h8 : env.read1 = Except.error e) :
    (pairRun c env).2 = Except.error (GErr.ioErr e) := by
  simp [pairRun, pairGenerateKey, pairWriteKey, pairMakeCSR, pairReadGreeting,
    h1, h2, h3, h4, h5, h6, h7, h8]

/-- Claim C4 (witness for the amended theorem), at the concrete timed-out
environment. -/
theorem pair_read_error_passthrough_witness :
    envTimedOut.read1 = Except.error GoIOErr.timeout ∧
    (pairRun clientA envTimedOut).2 = Except.error (GErr.ioErr GoIOErr.timeout) :=
  ⟨rfl, pair_read_error_passthrough clientA envTimedOut 7 GoIOErr.timeout
    rfl rfl rfl rfl rfl rfl rfl rfl⟩

/-- Claim C5: if the line read as the pairing response fails to unmarshal,
`Pair` fails with the unmarshal error — it does not succeed, performs no
certificate-file write, and reads no further line (exactly two reads occur
in the whole execution). -/
theorem pair_parse_failure_fatal (c : Client) (env : PairEnv) (k : Nat) (s : String)
    (line : Option Json) (m : String)
    (h1 : env.loadPairingCert = none) (h2 : env.dial = none) (h3 : env.setDeadline = none)
    (h4 : env.keygen = Except.ok k) (h5 : env.openKeyFile = none)
    (h6 : env.pemEncodeKey = none) (h7 : env.csrSign = none)
    (h8 : env.read1 = Except.ok s) (h9 : env.writeMsg = none)
    (h10 : env.writeNewline = none) (h11 : env.read2 = Except.ok line)
    (h12 : decodePairResponse line = Except.error m) :
    (pairRun c env).2 = Except.error (GErr.unmarshalErr m) ∧
    countReadLines (pairRun c env).1 = 2 ∧
    hasFileWrite (pairRun c env).1 = false := by
  simp [pairRun, pairGenerateKey, pairWriteKey, pairMakeCSR, pairReadGreeting,
    pairSendRequest, pairReadResponse, h1, h2, h3, h4, h5, h6, h7, h8, h9, h10, h11, h12,
    countReadLines, hasFileWrite, isReadLineEv, List.filter, List.any]

/-- Claim C5 (witness), at the concrete environment whose response line is
not valid JSON. -/
theorem pair_parse_failure_fatal_witness :
    envParseFail.read2 = Except.ok none ∧
    decodePairResponse none = Except.error "invalid json" ∧
    (pairRun clientA envParseFail).2 = Except.error (GErr.unmarshalErr "invalid json") ∧
    countReadLines (pairRun clientA envParseFail).1 = 2 ∧
    hasFileWrite (pairRun clientA envParseFail).1 = false := by
  have h := pair_parse_failure_fatal clientA envParseFail 7 "greeting" none "invalid json"
    rfl rfl rfl rfl rfl rfl rfl rfl rfl rfl rfl rfl
  exact ⟨rfl, rfl, h.1, h.2.1, h.2.2⟩

/-- Claim C6: in every execution of `Pair`, no connection write (neither
the CSR-bearing request nor its newline terminator) ever precedes the
PEM-encoding of the private key into the client-key file, and no key-file
write ever precedes the generation of the fresh 2048-bit keypair. -/
theorem pair_key_persisted_before_send (c : Client) (env : PairEnv) :
    keyWriteBeforeSend (pairRun c env).1 = true ∧
    genBeforeKeyWrite (pairRun c env).1 = true := by
  obtain ⟨lp, d, sd, kg, okf, pk, cs, r1, wm, wn, r2, wc, wca⟩ := env
  cases lp <;> cases d <;> cases sd <;> cases kg <;> cases okf <;> cases pk <;>
    simp [pairRun, pairGenerateKey, pairWriteKey, pairMakeCSR, pairReadGreeting,
      pairSendRequest, pairReadResponse, pairWriteCerts,
      keyWriteBeforeSend, genBeforeKeyWrite]

/-- Claim C7: when every collaborator call succeeds and the response line
unmarshals to a signing result with certificate `cert` and root
certificate `root`, `Pair` succeeds, writes exactly `cert` to the
client-certificate path and exactly `root` to the CA-certificate path,
and its trace is the full expected effect sequence. -/
theorem pair_success_writes_issued_certs (c : Client) (env : PairEnv) (k : Nat) (s : String)
    (line : Option Json) (cert root : String)
    (h1 : env.loadPairingCert = none) (h2 : env.dial = none) (h3 : env.setDeadline = none)
    (h4 : env.keygen = Except.ok k) (h5 : env.openKeyFile = none)
    (h6 : env.pemEncodeKey = none) (h7 : env.csrSign = none)
    (h8 : env.read1 = Except.ok s) (h9 : env.writeMsg = none)
    (h10 : env.writeNewline = none) (h11 : env.read2 = Except.ok line)
    (h12 : decodePairResponse line = Except.ok
      { Body := { SigningResult := { Certificate := cert, RootCertificate := root } } })
    (h13 : env.writeClientCert = none) (h14 : env.writeCACert = none) :
    (pairRun c env).2 = Except.ok () ∧
    (pairRun c env).1 =
      [Ev.dial pairDialConfig c.Host pairingPort, Ev.setDeadline, Ev.genKey 2048,
        Ev.writeKeyPEM c.ClientKeyPath "RSA PRIVATE KEY", Ev.csrCreate "tron", Ev.readLine,
        Ev.connWrite (Wire.request (mkPairRequest (csrPemString (pairCSR { id := k, bits := 2048 })))),
        Ev.connWrite Wire.newline, Ev.readLine,
        Ev.writeFile c.ClientCertPath cert, Ev.writeFile c.CACertPath root] := by
  simp [pairRun, pairGenerateKey, pairWriteKey, pairMakeCSR, pairReadGreeting,
    pairSendRequest, pairReadResponse, pairWriteCerts,
    h1, h2, h3, h4, h5, h6, h7, h8, h9, h10, h11, h12, h13, h14]

/-- Claim C7 (witness), at the concrete all-success environment whose peer
answers with `{"Body":{"SigningResult":{"Certificate":"PEM-A",
"RootCertificate":"PEM-B"}}}`. -/
theorem pair_success_writes_issued_certs_witness :
    decodePairResponse (some jsonSigning) = Except.ok
      { Body := { SigningResult := { Certificate := "PEM-A", RootCertificate := "PEM-B" } } } ∧
    (pairRun clientA envAllOk).2 = Except.ok () ∧
    (pairRun clientA envAllOk).1 =
      [Ev.dial pairDialConfig clientA.Host pairingPort, Ev.setDeadline, Ev.genKey 2048,
        Ev.writeKeyPEM clientA.ClientKeyPath "RSA PRIVATE KEY", Ev.csrCreate "tron", Ev.readLine,
        Ev.connWrite (Wire.request (mkPairRequest (csrPemString (pairCSR { id := 7, bits := 2048 })))),
        Ev.connWrite Wire.newline, Ev.readLine,
        Ev.writeFile clientA.ClientCertPath "PEM-A", Ev.writeFile clientA.CACertPath "PEM-B"] := by
  have h := pair_success_writes_issued_certs clientA envAllOk 7 "greeting" (some jsonSigning)
    "PEM-A" "PEM-B" rfl rfl rfl rfl rfl rfl rfl rfl rfl rfl rfl (by rfl) rfl rfl
  exact ⟨by rfl, h.1, h.2⟩

/-- Claim C8: for every keypair, the CSR `Pair` builds for it has subject
common name "tron", and the signature of that CSR verifies against the
public key declared inside the CSR itself. -/
theorem pair_csr_common_name_and_self_verify (key : RSAPrivateKey) :
    (pairCSR key).info.subjectCommonName = "tron" ∧
    (pairCSR key).checkSignature = true := by
  refine ⟨rfl, ?_⟩
  simp [pairCSR, createCertificateRequest, CertificateRequest.checkSignature]

/-- Claim C9: all three TLS sessions the client establishes disable
server-certificate verification; the pairing session authenticates with
the embedded factory certificate on the pairing port 8083, while the
control sessions of `Ping` and `Devices` authenticate with the issued
client certificate files on the distinct control port 8081. -/
theorem tls_skips_server_verification (c : Client) :
    pairDialConfig.InsecureSkipVerify = true ∧
    (pingDialConfig c).InsecureSkipVerify = true ∧
    (devicesDialConfig c).InsecureSkipVerify = true ∧
    pairDialConfig.Certificates = [CertSource.pairingEmbedded] ∧
    (pingDialConfig c).Certificates =
      [CertSource.clientFiles c.ClientCertPath c.ClientKeyPath] ∧
    (devicesDialConfig c).Certificates =
      [CertSource.clientFiles c.ClientCertPath c.ClientKeyPath] ∧
    pairingPort = 8083 ∧ controlPort = 8081 ∧ pairingPort ≠ controlPort :=
  ⟨rfl, rfl, rfl, rfl, rfl, rfl, rfl, rfl, by decide⟩

/-- Claim C10: the `Ping` and `Devices` read loops can exit only on a
failed read, in which case they return that read error; their results are
never the success values after the loop, and on a stream where no read
ever fails they never exit at all, so the success returns are unreachable
in every execution. -/
theorem read_loops_only_exit_on_read_failure
    (stream : Nat → Except GoIOErr String) (fuel i : Nat) :
    exitedWithSuccess (pingLoop stream fuel i) = false ∧
    exitedWithSuccess (devicesLoop stream fuel i) = false ∧
    (streamNeverFails stream →
      pingLoop stream fuel i = none ∧ devicesLoop stream fuel i = none) := by
  induction fuel generalizing i with
  | zero => exact ⟨rfl, rfl, fun _ => ⟨rfl, rfl⟩⟩
  | succ n ih =>
    cases h : stream i with
    | error e =>
      refine ⟨by simp [pingLoop, h, exitedWithSuccess],
        by simp [devicesLoop, h, exitedWithSuccess], ?_⟩
      intro hn
      obtain ⟨s, hs⟩ := hn i
      rw [h] at hs
      simp at hs
    | ok s =>
      refine ⟨?_, ?_, ?_⟩
      · simpa [pingLoop, h] using (ih (i + 1)).1
      · simpa [devicesLoop, h] using (ih (i + 1)).2.1
      · intro hn
        exact ⟨by simpa [pingLoop, h] using ((ih (i + 1)).2.2 hn).1,
          by simpa [devicesLoop, h] using ((ih (i + 1)).2.2 hn).2⟩

/-- Claim C10 (witness), on a stream where no read ever fails: after any
number of iterations both loops are still running. -/
theorem read_loops_only_exit_on_read_failure_witness :
    streamNeverFails steadyStream ∧
    pingLoop steadyStream 3 0 = none ∧
    devicesLoop steadyStream 3 0 = none :=
  ⟨fun _ => ⟨"noise", rfl⟩,
    ((read_loops_only_exit_on_read_failure steadyStream 3 0).2.2
      (fun _ => ⟨"noise", rfl⟩)).1,
    ((read_loops_only_exit_on_read_failure steadyStream 3 0).2.2
      (fun _ => ⟨"noise", rfl⟩)).2⟩

end Tron
